import Mathlib

/-!
Verification of the session multiplexer in src/front/src/socket_connect.ts
(class SocketHandler of the octave-online-server front server).

The TypeScript class is event driven and built on callbacks.  We embed it as
pure functions from an explicit handler state plus the inbound event (and, for
handlers whose body is a database callback, the result that the store passes
to that callback) to a new state together with a list of observable effects.
JavaScript falsy checks on nullable strings and objects are modeled with
Option (none stands for null or undefined); where the code tests truthiness
of a string value we also treat the empty string as falsy.  Handlers that can
throw a TypeError by reading a property of null are totalized with Except,
the error value standing for the thrown exception.
-/

namespace SocketConn

/-- A JavaScript value as far as this module inspects one: null or undefined,
a boolean, an integer number, a string, or NaN.  Payloads that the module
merely forwards are carried opaquely by this type. -/
inductive JsVal where
  | null
  | bool (b : Bool)
  | num (n : Int)
  | str (s : String)
  | nan
deriving Repr, DecidableEq

/-- Accumulate a list of decimal digit characters into a natural number. -/
def digitsToNat (ds : List Char) : Nat :=
  ds.foldl (fun n c => 10 * n + (c.toNat - 48)) 0

/-- Whether a character is a hexadecimal digit. -/
def isHexDigitChar (c : Char) : Bool :=
  c.isDigit || (decide ('a' ≤ c) && decide (c ≤ 'f')) ||
    (decide ('A' ≤ c) && decide (c ≤ 'F'))

/-- The numeric value of one hexadecimal digit character. -/
def hexDigitToNat (c : Char) : Nat :=
  if c.isDigit then c.toNat - 48
  else if 'a' ≤ c then c.toNat - 87
  else c.toNat - 55

/-- Accumulate a list of hexadecimal digit characters into a natural
number. -/
def hexToNat (ds : List Char) : Nat :=
  ds.foldl (fun n c => 16 * n + hexDigitToNat c) 0

/-- The part of radix-less JavaScript parseInt after sign handling: a 0x or
0X lead switches to radix 16 on the longest prefix of hexadecimal digits,
anything else takes the longest prefix of decimal digits; NaN when no digit
is found. -/
def parseIntCore (sign : Int) (cs : List Char) : JsVal :=
  match cs with
  | '0' :: c :: rest =>
    if c = 'x' ∨ c = 'X' then
      let ds := rest.takeWhile isHexDigitChar
      if ds.isEmpty then JsVal.nan else JsVal.num (sign * (hexToNat ds : Int))
    else
      let ds := ('0' :: c :: rest).takeWhile Char.isDigit
      if ds.isEmpty then JsVal.nan else JsVal.num (sign * (digitsToNat ds : Int))
  | _ =>
    let ds := cs.takeWhile Char.isDigit
    if ds.isEmpty then JsVal.nan else JsVal.num (sign * (digitsToNat ds : Int))

/-- The semantics of radix-less JavaScript parseInt on a list of
characters: skip leading whitespace, read an optional sign, then either a
hexadecimal literal after a 0x or 0X lead or the longest prefix of decimal
digits; NaN when no digit is found. -/
def parseIntChars (cs : List Char) : JsVal :=
  let cs2 := cs.dropWhile Char.isWhitespace
  match cs2 with
  | '-' :: rest => parseIntCore (-1) rest
  | '+' :: rest => parseIntCore 1 rest
  | _ => parseIntCore 1 cs2

/-- Drop decimal digits until one is left; the first argument is fuel
bounding the recursion so that the kernel can evaluate the function. -/
def leadingDigitAux : Nat → Nat → Nat
  | 0, m => m
  | fuel + 1, m => if m < 10 then m else leadingDigitAux fuel (m / 10)

/-- The leading decimal digit of a natural number. -/
def leadingDigit (m : Nat) : Nat := leadingDigitAux m m

/-- JavaScript parseInt applied to a JsVal.  A string is parsed by
parseIntChars.  An integer number is first stringified: below magnitude
10 to the 21st power that is the plain decimal numeral, so parseInt
returns the number itself; from that magnitude on JavaScript prints the
exponential form (significand, letter e, exponent), whose parse stops at
the letter e and yields the leading digit with the sign (we idealize the
number as exact, ignoring double rounding of the significand).  Everything
else (null, booleans, NaN) stringifies to something with no leading digit
and yields NaN. -/
def parseIntJs (v : JsVal) : JsVal :=
  match v with
  | JsVal.num n =>
    if n.natAbs < 10 ^ 21 then JsVal.num n
    else JsVal.num (if n < 0 then -(leadingDigit n.natAbs : Int) else (leadingDigit n.natAbs : Int))
  | JsVal.str s => parseIntChars s.data
  | _ => JsVal.nan

/-- The slice of a user document (user_model) that this module reads:
identifier, console text, display name, share key, enrolled program and
instructor program list. -/
structure IUser where
  id : String
  consoleText : String := ""
  displayName : String := ""
  share_key : Option String := none
  program : Option String := none
  instructor : List String := []
deriving Repr, DecidableEq

/-- The slice of a bucket document (bucket_model) that this module reads. -/
structure BucketRec where
  bucket_id : String
  user_id : String
  main : Option String := none
deriving Repr, DecidableEq

/-- An error passed by a store (mongo) to a callback. -/
structure DbErr where
  msg : String := ""
deriving Repr, DecidableEq

/-- The one-time init payload sent by the client: fields action, info,
sessCode and skipCreate, each possibly absent. -/
structure InitReq where
  action : Option String := none
  info : Option String := none
  sessCode : Option String := none
  skipCreate : Bool := false
deriving Repr, DecidableEq

/-- Payload of an enroll message. -/
structure EnrollObj where
  program : Option String := none
deriving Repr, DecidableEq

/-- Payload of an oo.unenroll_student message. -/
structure StudentObj where
  userId : Option String := none
deriving Repr, DecidableEq

/-- Payload of an oo.reenroll_student message. -/
structure ReenrollObj where
  userId : Option String := none
  program : Option String := none
deriving Repr, DecidableEq

/-- Payload of an oo.ping message; startTime is an arbitrary client-supplied
value. -/
structure PingObj where
  startTime : JsVal := JsVal.null
deriving Repr, DecidableEq

/-- Payload of an oo.toggle_sharing message. -/
structure ToggleObj where
  enabled : Bool := false
deriving Repr, DecidableEq

/-- Payload of an oo.set_password message. -/
structure PwdObj where
  new_pwd : String := ""
deriving Repr, DecidableEq

/-- Payload of an oo.delete_bucket message. -/
structure DeleteBucketObj where
  bucket_id : Option String := none
deriving Repr, DecidableEq

/-- Payload of a bucket-repo-created message from the back server. -/
structure BucketCreatedObj where
  bucket_id : Option String := none
  main : Option String := none
deriving Repr, DecidableEq

/-- The data of a workspace object held by the handler.  The kind string
records which constructor was used (SharedWorkspace with tag default,
student or host, or NormalWorkspace). -/
structure Workspace where
  kind : String
  shareInfo : Option String := none
  hostUser : Option IUser := none
  wsUser : Option IUser := none
  wsBucketId : Option String := none
  sessCode : Option String := none
deriving Repr, DecidableEq

/-- SharedWorkspace with tag default or student and a share key. -/
def Workspace.mkShared (kind : String) (info : String) : Workspace :=
  { kind := kind, shareInfo := some info }

/-- SharedWorkspace with tag host, wrapping the host user. -/
def Workspace.mkHost (u : IUser) : Workspace :=
  { kind := "host", hostUser := some u }

/-- NormalWorkspace with an optional prior sessCode, user and bucket id. -/
def Workspace.mkNormal (sessCode : Option String) (user : Option IUser)
    (bucketId : Option String) : Workspace :=
  { kind := "normal", sessCode := sessCode, wsUser := user, wsBucketId := bucketId }

/-- The listeners the handler can attach to the client socket. -/
inductive SocketL where
  | onDataD
  | onDestroyD
deriving Repr, DecidableEq

/-- The listeners the handler can attach to the back server channel. -/
inductive BackL where
  | onDataU
  | onDestroyU
deriving Repr, DecidableEq

/-- The listeners the handler can attach to the workspace. -/
inductive WsL where
  | onDataW
  | sendMessage
  | setSessCode
  | onDataWtoU
  | onLogW
deriving Repr, DecidableEq

/-- The mutable state of one SocketHandler instance, together with the
listener registrations it has placed on its three channels and the
subscription state and session code of the back server channel. -/
structure HState where
  user : Option IUser := none
  workspace : Option Workspace := none
  bucketId : Option String := none
  destroyed : Bool := false
  socketListeners : List SocketL := []
  backListeners : List BackL := []
  wsListeners : List WsL := []
  backSubscribed : Bool := false
  wsSubscribed : Bool := false
  backSessCode : Option String := none
deriving Repr, DecidableEq

/-- An observable action performed by the handler: an emit on the client
socket, a call into the back server channel, a call into the workspace, a
console log, a store operation, or the dispatch of a named local handler
from the inbound-message switch. -/
inductive Effect where
  | logMsg (tag : String)
  | emitStdout (data : String)
  | emitAlert (message : String)
  | socketEmit (name : String) (data : JsVal)
  | emitSessCode (sessCode : String)
  | emitPong (startTime : JsVal)
  | emitDestroyU (message : String)
  | emitReload
  | emitBucketDeleted (bucket_id : String)
  | emitBucketInfo (bucket_id : String)
  | emitBucketCreated (b : BucketRec)
  | backDataD (name : String) (data : JsVal)
  | backSetSessCode (code : Option String)
  | wsDataD (name : String) (data : JsVal)
  | wsDataU (name : String) (data : JsVal)
  | wsDestroyD (reason : String)
  | wsDestroyU (reason : String)
  | wsBeginOctaveRequest
  | dispatchEnroll (data : JsVal)
  | dispatchUpdateStudents (data : JsVal)
  | dispatchUnenrollStudent (data : JsVal)
  | dispatchReenrollStudent (data : JsVal)
  | dispatchPing (data : JsVal)
  | dispatchToggleSharing (data : JsVal)
  | dispatchOoReconnect
  | dispatchSetPassword (data : JsVal)
  | dispatchDeleteBucket (data : JsVal)
  | dispatchBucketCreated (data : JsVal)
  | userFindByProgram (program : String)
  | bucketFindByUser (user_id : String)
  | touchLastActivity (user_id : String)
  | bucketFindOne (bucket_id : String)
  | userSave (u : IUser)
  | bucketSave (b : BucketRec)
  | bucketRemove (b : BucketRec)
  | createShareKey
  | removeShareKey
  | setPasswordCall (new_pwd : String)
deriving Repr, DecidableEq

/-- JavaScript truthiness of a nullable string: null, undefined and the
empty string are falsy. -/
def jsTruthyStr (v : Option String) : Bool :=
  match v with
  | none => false
  | some s => !s.isEmpty

/-- Method sendMessage: posts a message in the client console window, as a
stdout data event (for older clients) followed by an alert event. -/
def sendMessage (message : String) : List Effect :=
  [Effect.emitStdout (message ++ "\n"), Effect.emitAlert message]

/-- Method unlisten: remove all listeners from the client socket and the
back server channel, unsubscribe the back server channel and, when a
workspace is present, remove all workspace listeners and unsubscribe the
workspace. -/
def unlisten (s : HState) : HState :=
  let s1 := { s with socketListeners := [], backListeners := [], backSubscribed := false }
  match s1.workspace with
  | some _ => { s1 with wsListeners := [], wsSubscribed := false }
  | none => s1

/-- Method listen: first unlisten (to prevent duplicate listeners), then
attach the socket listeners, the back server channel listeners and, when a
workspace is present, the five workspace listeners, subscribing the
workspace and finally the back server channel. -/
def listen (s : HState) : HState :=
  let s1 := unlisten s
  let s2 := { s1 with
    socketListeners := s1.socketListeners ++ [SocketL.onDataD, SocketL.onDestroyD],
    backListeners := s1.backListeners ++ [BackL.onDataU, BackL.onDestroyU] }
  let s3 :=
    match s2.workspace with
    | some _ =>
      { s2 with
        wsListeners := s2.wsListeners ++
          [WsL.onDataW, WsL.sendMessage, WsL.setSessCode, WsL.onDataWtoU, WsL.onLogW],
        wsSubscribed := true }
    | none => s2
  { s3 with backSubscribed := true }

/-- The listener registrations and subscription flags of a state, the part
of the state that the listener lifecycle discipline is about. -/
def listenerSet (s : HState) :
    List SocketL × List BackL × List WsL × Bool × Bool :=
  (s.socketListeners, s.backListeners, s.wsListeners, s.backSubscribed, s.wsSubscribed)

/-- The handler state right after the constructor initializes its fields. -/
def initialState : HState := {}

/-- A fresh session state whose workspace field is w and that has never had
any listener attached. -/
def freshSession (w : Option Workspace) : HState := { workspace := w }

/-- Test of the list membership done with indexOf on the instructor list:
indexOf of an undefined program is -1, so an absent program never passes. -/
def instrContains (u : IUser) (p : Option String) : Bool :=
  match p with
  | some prog => u.instructor.contains prog
  | none => false

/-- First three characters of a string, the substr(0,3) prefix test. -/
def strTake3 (s : String) : String := String.mk (s.data.take 3)

/-- Whether a message name is one of the reserved control names of the
first switch statement in onDataD. -/
def isReservedName (name : String) : Bool :=
  name = "init" || name = "enroll" || name = "update_students" ||
  name = "oo.unenroll_student" || name = "oo.reenroll_student" ||
  name = "oo.ping" || name = "oo.toggle_sharing" || name = "oo.reconnect" ||
  name = "oo.set_password" || name = "oo.delete_bucket"

/-- Listener onDataD: route one inbound client message.  Reserved control
names dispatch a local handler; names whose first three characters are ot.
or ws. go to the workspace when one exists and are dropped otherwise; the
names data and save are additionally forked into the workspace; everything
else is sent upstream to the back server channel. -/
def onDataD (s : HState) (name : String) (data : JsVal) : List Effect :=
  if name = "init" then []
  else if name = "enroll" then [Effect.dispatchEnroll data]
  else if name = "update_students" then [Effect.dispatchUpdateStudents data]
  else if name = "oo.unenroll_student" then [Effect.dispatchUnenrollStudent data]
  else if name = "oo.reenroll_student" then [Effect.dispatchReenrollStudent data]
  else if name = "oo.ping" then [Effect.dispatchPing data]
  else if name = "oo.toggle_sharing" then [Effect.dispatchToggleSharing data]
  else if name = "oo.reconnect" then [Effect.dispatchOoReconnect]
  else if name = "oo.set_password" then [Effect.dispatchSetPassword data]
  else if name = "oo.delete_bucket" then [Effect.dispatchDeleteBucket data]
  else if strTake3 name = "ot." ∨ strTake3 name = "ws." then
    if s.workspace.isSome then [Effect.wsDataD name data] else []
  else
    (if name = "data" ∧ s.workspace.isSome = true then [Effect.wsDataD name data] else []) ++
    (if name = "save" ∧ s.workspace.isSome = true then [Effect.wsDataD name data] else []) ++
    [Effect.backDataD name data]

/-- Listener onDataU: a message from the back server is forked into the
workspace, intercepted when it is bucket-repo-created, and otherwise
forwarded to the client unchanged. -/
def onDataU (s : HState) (name : String) (data : JsVal) : List Effect :=
  (if s.workspace.isSome then [Effect.wsDataU name data] else []) ++
  (if name = "bucket-repo-created" then [Effect.dispatchBucketCreated data]
   else [Effect.socketEmit name data])

/-- Listener onDataW: a data event from the workspace is forwarded to the
client unchanged. -/
def onDataW (name : String) (data : JsVal) : List Effect :=
  [Effect.socketEmit name data]

/-- Listener onDataWtoU: a back event from the workspace is forwarded to
the back server channel. -/
def onDataWtoU (name : String) (value : JsVal) : List Effect :=
  [Effect.backDataD name value]

/-- Listener onDestroyD (client disconnect): log, propagate a downstream
destroy with reason Client Disconnect to the workspace when present, and
unlisten. -/
def onDestroyD (s : HState) : HState × List Effect :=
  (unlisten s,
   Effect.logMsg "Client Disconnect" ::
     (if s.workspace.isSome then [Effect.wsDestroyD "Client Disconnect"] else []))

/-- Listener onDestroyU (back server exited): log, relay the destroy event
and reason to the client, clear the back server session code and propagate
an upstream destroy to the workspace when present. -/
def onDestroyU (s : HState) (message : String) : HState × List Effect :=
  ({ s with backSessCode := none },
   Effect.logMsg "Upstream Destroyed:" ::
   Effect.emitDestroyU message ::
   Effect.backSetSessCode none ::
     (if s.workspace.isSome then [Effect.wsDestroyU message] else []))

/-- Listener setSessCode (sesscode event from the workspace): log, pass the
code to the back server channel, emit a sesscode message whose payload
carries the code, and record the code on the workspace when one is
present. -/
def setSessCode (s : HState) (sessCode : String) : HState × List Effect :=
  ({ s with
      backSessCode := some sessCode,
      workspace := s.workspace.map (fun w => { w with sessCode := some sessCode }) },
   [Effect.logMsg "SessCode",
    Effect.backSetSessCode (some sessCode),
    Effect.emitSessCode sessCode])

/-- Method loadInstructor: for a user with a nonempty instructor list,
dispatch one user query per program (the emits happen in the query
callbacks). -/
def loadInstructor (user : Option IUser) : List Effect :=
  match user with
  | none => []
  | some u =>
    if u.instructor.isEmpty then []
    else u.instructor.map (fun p => Effect.userFindByProgram p)

/-- Method loadUserBuckets: for an authenticated user, dispatch the bucket
query for that user. -/
def loadUserBuckets (user : Option IUser) : List Effect :=
  match user with
  | none => []
  | some u => [Effect.bucketFindByUser u.id]

/-- Method touchUser: for an authenticated user, dispatch the last-activity
touch. -/
def touchUser (user : Option IUser) : List Effect :=
  match user with
  | none => []
  | some u => [Effect.touchLastActivity u.id]

/-- Method loadBucket, the part before the store callback: when a bucket id
is set, dispatch the bucket lookup. -/
def loadBucketEffects (bucketId : Option String) : List Effect :=
  match bucketId with
  | none => []
  | some b => [Effect.bucketFindOne b]

/-- The switch statement of init_session that selects the workspace
variant: none models the early returns (a workspace, student or bucket
action without info), otherwise the constructed workspace and the log line
of that branch. -/
def selectWorkspace (user : Option IUser) (action : Option String)
    (info : Option String) (oldSessCode : Option String) :
    Option (Workspace × List Effect) :=
  if action = some "workspace" then
    match info with
    | none => none
    | some i =>
      some (Workspace.mkShared "default" i,
        [Effect.logMsg "Attaching to colaborative workspace:"])
  else if action = some "student" then
    match info with
    | none => none
    | some i =>
      some (Workspace.mkShared "student" i,
        [Effect.logMsg "Attaching to a student workspace:"])
  else if action = some "bucket" then
    match info with
    | none => none
    | some i =>
      some (Workspace.mkNormal oldSessCode user (some i),
        [Effect.logMsg "Attaching to a bucket:"])
  else
    match user with
    | some u =>
      if jsTruthyStr u.share_key then
        some (Workspace.mkHost u,
          [Effect.logMsg "Attaching as host to student workspace:"])
      else
        some (Workspace.mkNormal oldSessCode user none,
          [Effect.logMsg "Attaching to default workspace with sessCode"])
    | none =>
      some (Workspace.mkNormal oldSessCode none none,
        [Effect.logMsg "Attaching to default workspace with sessCode"])

/-- The join continuation init_session of the startup Async.auto: a no-op
when the session is already destroyed; otherwise attach the user, fork the
instructor, bucket and touch side effects, select the workspace variant
from the init request (with the backwards compatibility rewrite of the old
session code), rebind the listeners and either start the bucket load or,
unless suppressed, begin the octave request. -/
def init_session (s : HState) (user : Option IUser) (init : Option InitReq) :
    HState × List Effect :=
  if s.destroyed = true then (s, [])
  else
    let s1 := { s with user := user }
    let pre := loadInstructor user ++ loadUserBuckets user ++ touchUser user
    let action := init.bind InitReq.action
    let info := init.bind InitReq.info
    let oldSessCode0 := init.bind InitReq.sessCode
    let skipCreate := (init.map InitReq.skipCreate).getD false
    let oldSessCode :=
      if action = some "session" ∧ jsTruthyStr oldSessCode0 = false then info
      else oldSessCode0
    match selectWorkspace user action info oldSessCode with
    | none => (s1, pre)
    | some (w, logs) =>
      let s2 := listen { s1 with workspace := some w }
      if action = some "bucket" then
        ({ s2 with bucketId := info }, pre ++ logs ++ loadBucketEffects info)
      else if skipCreate = false then
        (s2, pre ++ logs ++ [Effect.wsBeginOctaveRequest])
      else (s2, pre ++ logs)

/-- The Async.auto orchestration in the constructor, at the moment the two
startup branches have settled.  Per the async library contract, a task that
passes an error to its callback makes auto skip the not-yet-started
dependent tasks (here init_session, which depends on both branches) and
invoke the final callback immediately with that error, which the
constructor logs as ASYNC ERROR; on success the final callback receives no
error and logs nothing. -/
def startupJoin (s : HState) (userRes : Except DbErr (Option IUser))
    (init : Option InitReq) : HState × List Effect :=
  match userRes with
  | Except.error _ => (s, [Effect.logMsg "ASYNC ERROR"])
  | Except.ok user => init_session s user init

/-- The callback of the bucket lookup dispatched by loadBucket: a store
error is logged and reported; a missing bucket notifies the client,
signals upstream destruction with reason Unknown Bucket and clears the
workspace reference; a found bucket is relayed to the client and, unless
suppressed, the workspace begins its octave request. -/
def loadBucketCb (s : HState) (skipCreate : Bool)
    (res : Except DbErr (Option BucketRec)) : HState × List Effect :=
  match res with
  | Except.error _ =>
    (s, Effect.logMsg "LOAD BUCKET ERROR" ::
        sendMessage "Encountered error while initializing bucket.")
  | Except.ok none =>
    ({ s with workspace := none },
     sendMessage ("Unable to find bucket: " ++ s.bucketId.getD "") ++
       [Effect.emitDestroyU "Unknown Bucket"])
  | Except.ok (some bucket) =>
    (s, Effect.logMsg "Bucket loaded:" ::
        Effect.emitBucketInfo bucket.bucket_id ::
        (if skipCreate = false then [Effect.wsBeginOctaveRequest] else []))

/-- Handler onSetPassword: requires a payload and an authenticated user,
then delegates to the password-change operation of the profile and, in its
callback, logs an error or confirms to the client. -/
def onSetPassword (s : HState) (obj : Option PwdObj) (res : Option DbErr) :
    List Effect :=
  match obj with
  | none => []
  | some o =>
    match s.user with
    | none => []
    | some _ =>
      Effect.setPasswordCall o.new_pwd ::
        (match res with
         | some _ => [Effect.logMsg "SET PASSWORD ERROR"]
         | none => sendMessage "Your password has been changed.")

/-- Handler onBucketCreated (upstream bucket-repo-created event): requires
a bucket id and an authenticated user (logged and dropped otherwise), then
saves a new bucket record owned by the current user and, in the save
callback, confirms creation to the client. -/
def onBucketCreated (s : HState) (obj : Option BucketCreatedObj)
    (saveRes : Option DbErr) : List Effect :=
  match obj with
  | none => []
  | some o =>
    match o.bucket_id with
    | none => []
    | some bid =>
      match s.user with
      | none => [Effect.logMsg "ERROR: No user but got bucket-created message!"]
      | some u =>
        let b : BucketRec := { bucket_id := bid, user_id := u.id, main := o.main }
        Effect.logMsg "Creating bucket:" ::
        Effect.bucketSave b ::
          (match saveRes with
           | some _ => [Effect.logMsg "ERROR creating bucket:"]
           | none => [Effect.emitBucketCreated b])

/-- Handler onDeleteBucket: requires a payload with a bucket id and an
authenticated user; the bucket lookup result is passed to the store
callback, which reports a store error, reports a missing bucket, rejects a
bucket whose owner differs from the acting user, and otherwise removes the
record and, in the removal callback, reports an error or confirms the
deletion. -/
def onDeleteBucket (s : HState) (obj : Option DeleteBucketObj)
    (findRes : Except DbErr (Option BucketRec)) (removeRes : Option DbErr) :
    List Effect :=
  match obj with
  | none => []
  | some o =>
    match o.bucket_id with
    | none => []
    | some bid =>
      match s.user with
      | none => []
      | some u =>
        Effect.logMsg "Deleting bucket:" ::
          (match findRes with
           | Except.error _ =>
             Effect.logMsg "LOAD BUCKET ERROR" ::
               sendMessage "Encountered error while finding bucket."
           | Except.ok none =>
             sendMessage "Unable to find bucket; did you already delete it?"
           | Except.ok (some bucket) =>
             if u.id ≠ bucket.user_id then
               Effect.logMsg "ERROR: Bad owner:" ::
                 sendMessage "You are not the owner of that bucket"
             else
               Effect.bucketRemove bucket ::
                 (match removeRes with
                  | some _ =>
                    Effect.logMsg "REMOVE BUCKET ERROR" ::
                      sendMessage "Encountered error while removing bucket."
                  | none => [Effect.emitBucketDeleted bid]))

/-- Handler onOoReconnect: restart the octave request when a workspace is
present, otherwise tell the client the session is invalid. -/
def onOoReconnect (s : HState) : List Effect :=
  if s.workspace.isSome then [Effect.wsBeginOctaveRequest]
  else [Effect.emitDestroyU "Invalid Session"]

/-- Handler onEnroll: requires an authenticated user and a payload with a
program; sets the program on the profile and saves it, logging a store
error or confirming enrollment in the save callback. -/
def onEnroll (s : HState) (obj : Option EnrollObj) (saveRes : Option DbErr) :
    HState × List Effect :=
  match s.user with
  | none => (s, [])
  | some u =>
    match obj with
    | none => (s, [])
    | some o =>
      match o.program with
      | none => (s, [])
      | some prog =>
        let u2 := { u with program := some prog }
        ({ s with user := some u2 },
         Effect.logMsg "Enrolling" ::
         Effect.userSave u2 ::
           (match saveRes with
            | some _ => [Effect.logMsg "MONGO ERROR"]
            | none => sendMessage "Successfully enrolled"))

/-- Handler onUpdateStudents: with a payload, reply that the command has
been replaced. -/
def onUpdateStudents (obj : Option JsVal) : List Effect :=
  match obj with
  | none => []
  | some _ =>
    sendMessage "The update_students command has been replaced.\nOpen a support ticket for more information."

/-- Handler onUnenrollStudent, totalized over the null dereference of
this.user (and of a student the store did not find) in the lookup
callback: requires a payload with a userId, then looks up the student; a
store error is logged; reading the instructor list of a null user, or the
program of a null student, is the thrown TypeError, modeled as the error
value; an acting user whose instructor list does not contain the student
program only logs a warning; otherwise the student is moved to the default
program and saved, with confirmation in the save callback. -/
def onUnenrollStudent (s : HState) (obj : Option StudentObj)
    (findRes : Except DbErr (Option IUser)) (saveRes : Option DbErr) :
    Except Unit (List Effect) :=
  match obj with
  | none => Except.ok []
  | some o =>
    match o.userId with
    | none => Except.ok []
    | some _ =>
      match findRes with
      | Except.error _ => Except.ok [Effect.logMsg "MONGO ERROR"]
      | Except.ok studentOpt =>
        match s.user with
        | none => Except.error ()
        | some u =>
          match studentOpt with
          | none => Except.error ()
          | some student =>
            if instrContains u student.program = false then
              Except.ok [Effect.logMsg "Warning: illegal call to unenroll student"]
            else
              let st2 := { student with program := some "default" }
              Except.ok
                (Effect.logMsg "Un-enrolling" ::
                 Effect.userSave st2 ::
                   (match saveRes with
                    | some _ => [Effect.logMsg "MONGO ERROR"]
                    | none =>
                      sendMessage ("Student successfully unenrolled: " ++ student.displayName)))

/-- Handler onReenrollStudent, totalized like onUnenrollStudent: requires a
payload with a userId and a program; reading the instructor list of a null
user before the lookup is the thrown TypeError; a destination program not
in the instructor list is rejected with a client message and a warning log;
after the lookup, a store error is logged, a null student is a TypeError,
a student whose current program is not in the instructor list only logs a
warning, and otherwise the student is moved to the destination program and
saved, with confirmation in the save callback. -/
def onReenrollStudent (s : HState) (obj : Option ReenrollObj)
    (findRes : Except DbErr (Option IUser)) (saveRes : Option DbErr) :
    Except Unit (List Effect) :=
  match obj with
  | none => Except.ok []
  | some o =>
    match o.userId with
    | none => Except.ok []
    | some _ =>
      match o.program with
      | none => Except.ok []
      | some prog =>
        match s.user with
        | none => Except.error ()
        | some u =>
          if u.instructor.contains prog = false then
            Except.ok
              (sendMessage ("Student not re-enrolled: Cannot use the course code " ++ prog) ++
               [Effect.logMsg "Warning: illegal call to re-enroll student"])
          else
            match findRes with
            | Except.error _ => Except.ok [Effect.logMsg "ERROR ON UNENROLL STUDENT"]
            | Except.ok none => Except.error ()
            | Except.ok (some student) =>
              if instrContains u student.program = false then
                Except.ok [Effect.logMsg "Warning: illegal call to reenroll student"]
              else
                let st2 := { student with program := some prog }
                Except.ok
                  (Effect.logMsg "Re-enrolling" ::
                   Effect.userSave st2 ::
                     (match saveRes with
                      | some _ => [Effect.logMsg "MONGO ERROR"]
                      | none =>
                        sendMessage ("Student successfully re-enrolled: " ++ student.displayName)))

/-- Handler onPing: with a payload, reply with an oo.pong message whose
startTime is parseInt of the client-supplied startTime. -/
def onPing (obj : Option PingObj) : List Effect :=
  match obj with
  | none => []
  | some o => [Effect.emitPong (parseIntJs o.startTime)]

/-- Handler onToggleSharing: requires an authenticated user and a payload.
Disabling while enrolled in a non-default program is rejected; enabling
creates a share key and reloads the client; disabling tears down the
workspace with reason Sharing Disabled, removes the share key and reloads
the client.  The reload is emitted in the key callback whether or not the
store reported an error. -/
def onToggleSharing (s : HState) (obj : Option ToggleObj) (keyRes : Option DbErr) :
    List Effect :=
  match s.user with
  | none => []
  | some u =>
    match obj with
    | none => []
    | some o =>
      if o.enabled = false ∧ jsTruthyStr u.program = true ∧ u.program ≠ some "default" then
        sendMessage "You must unenroll before disabling sharing.\nTo unenroll, run the command \x22enroll(\x27default\x27)\x22."
      else if o.enabled = true then
        Effect.createShareKey ::
          (match keyRes with
           | some _ => [Effect.logMsg "MONGO ERROR", Effect.emitReload]
           | none => [Effect.emitReload])
      else
        (if s.workspace.isSome then [Effect.wsDestroyD "Sharing Disabled"] else []) ++
        (Effect.removeShareKey ::
          (match keyRes with
           | some _ => [Effect.logMsg "MONGO ERROR", Effect.emitReload]
           | none => [Effect.emitReload]))

/-- Whether an effect list contains a client-visible alert message. -/
def hasAlert (l : List Effect) : Bool :=
  l.any (fun e =>
    match e with
    | Effect.emitAlert _ => true
    | _ => false)

/-- Whether an effect list contains a profile save. -/
def hasUserSave (l : List Effect) : Bool :=
  l.any (fun e =>
    match e with
    | Effect.userSave _ => true
    | _ => false)

/-- An instructor of course1, used as a concrete acting user. -/
def instrUser : IUser :=
  { id := "teach1", consoleText := "teach1", instructor := ["course1"] }

/-- A user with no instructor programs. -/
def userB : IUser := { id := "userB", consoleText := "userB" }

/-- A student enrolled in a program that instrUser does not teach. -/
def studentA : IUser :=
  { id := "stud1", consoleText := "stud1", displayName := "Stud One",
    program := some "other-course" }

/-- A bucket owned by userA. -/
def bucketA : BucketRec := { bucket_id := "bucket1", user_id := "userA" }

/-- A shared workspace used in concrete states. -/
def wsA : Workspace := Workspace.mkShared "default" "sharekey1"

/-- A session state holding a workspace, with stale listener registrations
left on the channels. -/
def wsState : HState :=
  { workspace := some wsA,
    socketListeners := [SocketL.onDataD, SocketL.onDataD],
    wsListeners := [WsL.onLogW] }

/-- Every reserved control name fails the two-character-prefix tests. -/
theorem reserved_not_prefixed (name : String) (h : isReservedName name = true) :
    ¬(strTake3 name = "ot." ∨ strTake3 name = "ws.") := by
  simp only [isReservedName, Bool.or_eq_true, decide_eq_true_eq] at h
  rcases h with ((((((((h|h)|h)|h)|h)|h)|h)|h)|h)|h <;> subst h <;> decide

/-- A name that is not reserved differs from each reserved literal. -/
theorem name_ne_of_not_reserved (name : String) (hr : isReservedName name = false) :
    name ≠ "init" ∧ name ≠ "enroll" ∧ name ≠ "update_students" ∧
    name ≠ "oo.unenroll_student" ∧ name ≠ "oo.reenroll_student" ∧
    name ≠ "oo.ping" ∧ name ≠ "oo.toggle_sharing" ∧ name ≠ "oo.reconnect" ∧
    name ≠ "oo.set_password" ∧ name ≠ "oo.delete_bucket" := by
  refine ⟨?_, ?_, ?_, ?_, ?_, ?_, ?_, ?_, ?_, ?_⟩ <;>
    exact fun he => by subst he; revert hr; decide

/-- Claim C1: a client message whose name starts with ot. or ws. is routed
only to the workspace (delivered to its dataD when a workspace exists,
dropped otherwise) and never reaches the back server channel; a message
whose name is no reserved control name and carries neither prefix is
forwarded unchanged to the dataD of the back server channel, and when no
workspace is bound that forward is the only effect. -/
theorem onDataD_routing (s : HState) (name : String) (data : JsVal) :
    ((strTake3 name = "ot." ∨ strTake3 name = "ws.") →
      onDataD s name data =
        if s.workspace.isSome then [Effect.wsDataD name data] else []) ∧
    (isReservedName name = false →
      ¬(strTake3 name = "ot." ∨ strTake3 name = "ws.") →
      Effect.backDataD name data ∈ onDataD s name data ∧
        (s.workspace = none →
          onDataD s name data = [Effect.backDataD name data])) := by
  constructor
  · intro hpre
    have hr : isReservedName name = false := by
      cases hB : isReservedName name with
      | false => rfl
      | true => exact absurd hpre (reserved_not_prefixed name hB)
    obtain ⟨h1, h2, h3, h4, h5, h6, h7, h8, h9, h10⟩ :=
      name_ne_of_not_reserved name hr
    unfold onDataD
    rw [if_neg h1, if_neg h2, if_neg h3, if_neg h4, if_neg h5, if_neg h6,
      if_neg h7, if_neg h8, if_neg h9, if_neg h10, if_pos hpre]
  · intro hr hpre
    obtain ⟨h1, h2, h3, h4, h5, h6, h7, h8, h9, h10⟩ :=
      name_ne_of_not_reserved name hr
    unfold onDataD
    rw [if_neg h1, if_neg h2, if_neg h3, if_neg h4, if_neg h5, if_neg h6,
      if_neg h7, if_neg h8, if_neg h9, if_neg h10, if_neg hpre]
    constructor
    · simp
    · intro hw
      simp [hw]

/-- Witness for C1 at concrete inputs: with a workspace bound, ot.insert
goes to the workspace alone; with no workspace, anything.else goes to the
back server channel unchanged and is the only effect. -/
theorem onDataD_routing_witness :
    onDataD wsState "ot.insert" JsVal.null =
      [Effect.wsDataD "ot.insert" JsVal.null] ∧
    Effect.backDataD "anything.else" (JsVal.str "p") ∈
      onDataD initialState "anything.else" (JsVal.str "p") ∧
    onDataD initialState "anything.else" (JsVal.str "p") =
      [Effect.backDataD "anything.else" (JsVal.str "p")] := by
  refine ⟨?_, ?_, ?_⟩
  · have h := (onDataD_routing wsState "ot.insert" JsVal.null).1 (Or.inl (by decide))
    rw [h]
    decide
  · exact ((onDataD_routing initialState "anything.else" (JsVal.str "p")).2
      (by decide) (by decide)).1
  · exact ((onDataD_routing initialState "anything.else" (JsVal.str "p")).2
      (by decide) (by decide)).2 rfl

/-- Claim C2: listen performs a full unlisten before attaching the current
listener set, so rebinding after an unlisten, and any number of repeated
rebinds, leave exactly the listener set of a single bind, and that set
equals the one of a fresh session with the same workspace (given that a
workspace is present, or that no stale workspace registrations were
leaked while no workspace is bound). -/
theorem listen_rebind (s : HState) (n : Nat) :
    listen (unlisten s) = listen s ∧
    Nat.iterate listen (n + 1) s = listen s ∧
    (s.workspace.isSome = true ∨ (s.wsListeners = [] ∧ s.wsSubscribed = false) →
      listenerSet (listen s) = listenerSet (listen (freshSession s.workspace))) := by
  have hidem : ∀ t : HState, listen (listen t) = listen t := by
    intro t
    obtain ⟨u, w, b, d, sl, bl, wl, bs, wsb, bsc⟩ := t
    cases w <;> rfl
  refine ⟨?_, ?_, ?_⟩
  · obtain ⟨u, w, b, d, sl, bl, wl, bs, wsb, bsc⟩ := s
    cases w <;> rfl
  · have hiter : ∀ (m : Nat) (t : HState),
        Nat.iterate listen (m + 1) t = listen t := by
      intro m
      induction m with
      | zero => intro t; rfl
      | succ k ih =>
        intro t
        have hstep : Nat.iterate listen (k + 1 + 1) t =
            Nat.iterate listen (k + 1) (listen t) := rfl
        rw [hstep, ih (listen t), hidem t]
    exact hiter n s
  · intro h
    obtain ⟨u, w, b, d, sl, bl, wl, bs, wsb, bsc⟩ := s
    cases w with
    | some w0 => rfl
    | none =>
      rcases h with h | ⟨h1, h2⟩
      · simp at h
      · dsimp only at h1 h2
        subst h1
        subst h2
        rfl

/-- Witness for C2: five consecutive binds on a session with a workspace
and stale listeners equal one bind, whose listener set is that of a fresh
bind. -/
theorem listen_rebind_witness :
    Nat.iterate listen 5 wsState = listen wsState ∧
    listenerSet (listen wsState) =
      listenerSet (listen (freshSession wsState.workspace)) :=
  ⟨(listen_rebind wsState 4).2.1,
   (listen_rebind wsState 4).2.2 (Or.inl rfl)⟩

/-- Claim C3: when the destroyed flag is set at the moment both startup
branches have resolved, the join continuation init_session leaves the
state unchanged and performs no effect at all. -/
theorem init_session_destroyed_noop (s : HState) (user : Option IUser)
    (init : Option InitReq) (h : s.destroyed = true) :
    init_session s user init = (s, []) := by
  unfold init_session
  rw [if_pos h]

/-- Witness for C3 on a destroyed session with a user and an init request
that would otherwise create a workspace. -/
theorem init_session_destroyed_noop_witness :
    ({ initialState with destroyed := true } : HState).destroyed = true ∧
    init_session { initialState with destroyed := true } (some instrUser)
        (some { action := some "session" }) =
      ({ initialState with destroyed := true }, []) :=
  ⟨rfl, init_session_destroyed_noop _ _ _ rfl⟩

/-- A workspace init request used as a concrete input. -/
def initReqWs : InitReq := { action := some "workspace", info := some "sharekey1" }

/-- Counterexample to claim C4 as stated: when the profile lookup branch
errors, the error is logged and the session keeps its state, but the join
continuation does not execute at all — although running init_session with a
null profile on the same init request would have created a workspace, the
state after the erroring join holds no workspace and is unchanged. -/
theorem startupJoin_error_cex :
    startupJoin initialState (Except.error { msg := "db down" }) (some initReqWs) =
      (initialState, [Effect.logMsg "ASYNC ERROR"]) ∧
    (init_session initialState none (some initReqWs)).1.workspace =
      some (Workspace.mkShared "default" "sharekey1") ∧
    (startupJoin initialState (Except.error { msg := "db down" })
        (some initReqWs)).1.workspace = none := by
  refine ⟨rfl, ?_, rfl⟩
  decide

/-- Claim C4 amended: an error from the profile lookup branch is logged as
ASYNC ERROR and leaves the session state (in particular the destroyed
flag) unchanged, but the join continuation is skipped; the continuation
runs with a null profile only when the lookup succeeds while returning no
user. -/
theorem startupJoin_error_amended (s : HState) (e : DbErr)
    (init : Option InitReq) :
    startupJoin s (Except.error e) init = (s, [Effect.logMsg "ASYNC ERROR"]) ∧
    (startupJoin s (Except.error e) init).1.destroyed = s.destroyed ∧
    startupJoin s (Except.ok none) init = init_session s none init :=
  ⟨rfl, rfl, rfl⟩

/-- Claim C5: a delete-bucket request by an authenticated user who is not
the owner of the looked-up bucket is rejected with the client-visible
owner message and removes nothing; and in full generality a bucket removal
effect occurs only when the acting user exists and its id equals the
user_id of the looked-up bucket. -/
theorem onDeleteBucket_ownership (s : HState) (bid : String)
    (removeRes : Option DbErr) (u : IUser) (bucket : BucketRec)
    (hu : s.user = some u) (hne : u.id ≠ bucket.user_id) :
    (Effect.emitAlert "You are not the owner of that bucket" ∈
        onDeleteBucket s (some { bucket_id := some bid })
          (Except.ok (some bucket)) removeRes ∧
      ∀ b, Effect.bucketRemove b ∉
        onDeleteBucket s (some { bucket_id := some bid })
          (Except.ok (some bucket)) removeRes) ∧
    (∀ (s2 : HState) (obj2 : Option DeleteBucketObj)
        (fr2 : Except DbErr (Option BucketRec)) (rr2 : Option DbErr)
        (b : BucketRec),
      Effect.bucketRemove b ∈ onDeleteBucket s2 obj2 fr2 rr2 →
      ∃ u2, s2.user = some u2 ∧ fr2 = Except.ok (some b) ∧
        u2.id = b.user_id) := by
  constructor
  · have hEq : onDeleteBucket s (some { bucket_id := some bid })
        (Except.ok (some bucket)) removeRes =
        Effect.logMsg "Deleting bucket:" :: Effect.logMsg "ERROR: Bad owner:" ::
          sendMessage "You are not the owner of that bucket" := by
      simp only [onDeleteBucket, hu]
      rw [if_pos hne]
    rw [hEq]
    constructor
    · simp [sendMessage]
    · intro b
      simp [sendMessage]
  · intro s2 obj2 fr2 rr2 b hmem
    rcases obj2 with _ | o
    · simp [onDeleteBucket] at hmem
    · rcases o with ⟨bid2⟩
      rcases bid2 with _ | bid2
      · simp [onDeleteBucket] at hmem
      · rcases hsu : s2.user with _ | u2
        · simp [onDeleteBucket, hsu] at hmem
        · rcases fr2 with e | ob
          · simp [onDeleteBucket, hsu, sendMessage] at hmem
          · rcases ob with _ | bucket2
            · simp [onDeleteBucket, hsu, sendMessage] at hmem
            · rcases rr2 with _ | e2 <;>
                by_cases hid : u2.id = bucket2.user_id
              · have hEq2 : onDeleteBucket s2 (some { bucket_id := some bid2 })
                    (Except.ok (some bucket2)) none =
                    Effect.logMsg "Deleting bucket:" ::
                      Effect.bucketRemove bucket2 ::
                      [Effect.emitBucketDeleted bid2] := by
                  simp only [onDeleteBucket, hsu]
                  rw [if_neg (fun hc => hc hid)]
                rw [hEq2] at hmem
                simp [sendMessage] at hmem
                subst hmem
                exact ⟨u2, rfl, rfl, hid⟩
              · have hEq2 : onDeleteBucket s2 (some { bucket_id := some bid2 })
                    (Except.ok (some bucket2)) none =
                    Effect.logMsg "Deleting bucket:" ::
                      Effect.logMsg "ERROR: Bad owner:" ::
                      sendMessage "You are not the owner of that bucket" := by
                  simp only [onDeleteBucket, hsu]
                  rw [if_pos hid]
                rw [hEq2] at hmem
                simp [sendMessage] at hmem
              · have hEq2 : onDeleteBucket s2 (some { bucket_id := some bid2 })
                    (Except.ok (some bucket2)) (some e2) =
                    Effect.logMsg "Deleting bucket:" ::
                      Effect.bucketRemove bucket2 ::
                      Effect.logMsg "REMOVE BUCKET ERROR" ::
                      sendMessage "Encountered error while removing bucket." := by
                  simp only [onDeleteBucket, hsu]
                  rw [if_neg (fun hc => hc hid)]
                rw [hEq2] at hmem
                simp [sendMessage] at hmem
                subst hmem
                exact ⟨u2, rfl, rfl, hid⟩
              · have hEq2 : onDeleteBucket s2 (some { bucket_id := some bid2 })
                    (Except.ok (some bucket2)) (some e2) =
                    Effect.logMsg "Deleting bucket:" ::
                      Effect.logMsg "ERROR: Bad owner:" ::
                      sendMessage "You are not the owner of that bucket" := by
                  simp only [onDeleteBucket, hsu]
                  rw [if_pos hid]
                rw [hEq2] at hmem
                simp [sendMessage] at hmem

/-- Witness for C5: userB attempts to delete a bucket owned by userA; the
owner message is emitted and no removal effect occurs. -/
theorem onDeleteBucket_ownership_witness :
    Effect.emitAlert "You are not the owner of that bucket" ∈
      onDeleteBucket { initialState with user := some userB }
        (some { bucket_id := some "bucket1" }) (Except.ok (some bucketA)) none ∧
    ∀ b, Effect.bucketRemove b ∉
      onDeleteBucket { initialState with user := some userB }
        (some { bucket_id := some "bucket1" }) (Except.ok (some bucketA)) none :=
  ⟨(onDeleteBucket_ownership _ "bucket1" none userB bucketA rfl
      (by decide)).1.1,
   (onDeleteBucket_ownership _ "bucket1" none userB bucketA rfl
      (by decide)).1.2⟩

/-- Claim C6: on a sesscode event carrying code c, the handler passes c to
the back server channel, emits a sesscode message whose payload carries c,
and records c on the workspace when one is present. -/
theorem setSessCode_effects (s : HState) (c : String) (w : Workspace) :
    Effect.backSetSessCode (some c) ∈ (setSessCode s c).2 ∧
    Effect.emitSessCode c ∈ (setSessCode s c).2 ∧
    (setSessCode s c).1.backSessCode = some c ∧
    (s.workspace = some w →
      (setSessCode s c).1.workspace = some { w with sessCode := some c }) := by
  refine ⟨by simp [setSessCode], by simp [setSessCode], rfl, ?_⟩
  intro hw
  simp [setSessCode, hw]

/-- Witness for C6: the workspace of wsState records the assigned code
abc123. -/
theorem setSessCode_effects_witness :
    (setSessCode wsState "abc123").1.workspace =
      some { wsA with sessCode := some "abc123" } :=
  (setSessCode_effects wsState "abc123" wsA).2.2.2 rfl

/-- Counterexample to claim C7 as stated: an unenroll-student request that
fails the authorization check produces only the warning log entry and no
client-visible message, contradicting the claim that the rejection carries
both. -/
theorem unenroll_auth_cex :
    onUnenrollStudent { initialState with user := some instrUser }
        (some { userId := some "stud1" }) (Except.ok (some studentA)) none =
      Except.ok [Effect.logMsg "Warning: illegal call to unenroll student"] ∧
    hasAlert [Effect.logMsg "Warning: illegal call to unenroll student"] = false :=
  ⟨rfl, rfl⟩

/-- Claim C7 amended: an unenroll-student request failing the authorization
check is rejected with a warning log only; a reenroll-student request whose
destination program fails the check is rejected with both a client-visible
message and a warning log; a reenroll-student request whose target student
current program fails the check is rejected with a warning log only; in
each case no save of the target profile is issued. -/
theorem enroll_auth_amended (s : HState) (u : IUser) (uid : String)
    (student : IUser) (saveRes : Option DbErr) (prog : String)
    (hu : s.user = some u) :
    (instrContains u student.program = false →
      onUnenrollStudent s (some { userId := some uid })
          (Except.ok (some student)) saveRes =
        Except.ok [Effect.logMsg "Warning: illegal call to unenroll student"]) ∧
    (u.instructor.contains prog = false →
      onReenrollStudent s (some { userId := some uid, program := some prog })
          (Except.ok (some student)) saveRes =
        Except.ok
          (sendMessage ("Student not re-enrolled: Cannot use the course code " ++ prog) ++
            [Effect.logMsg "Warning: illegal call to re-enroll student"])) ∧
    (u.instructor.contains prog = true →
      instrContains u student.program = false →
      onReenrollStudent s (some { userId := some uid, program := some prog })
          (Except.ok (some student)) saveRes =
        Except.ok [Effect.logMsg "Warning: illegal call to reenroll student"]) := by
  refine ⟨?_, ?_, ?_⟩
  · intro h
    simp only [onUnenrollStudent, hu]
    rw [if_pos h]
  · intro h
    simp only [onReenrollStudent, hu]
    rw [if_pos h]
  · intro h1 h2
    simp only [onReenrollStudent, hu]
    have hnc : ¬(u.instructor.contains prog = false) := by
      rw [h1]
      decide
    rw [if_neg hnc, if_pos h2]

/-- Witness for C7 amended at concrete inputs: instrUser teaches course1
only; studentA is enrolled in other-course. -/
theorem enroll_auth_amended_witness :
    onUnenrollStudent { initialState with user := some instrUser }
        (some { userId := some "stud1" }) (Except.ok (some studentA)) none =
      Except.ok [Effect.logMsg "Warning: illegal call to unenroll student"] ∧
    onReenrollStudent { initialState with user := some instrUser }
        (some { userId := some "stud1", program := some "courseX" })
        (Except.ok (some studentA)) none =
      Except.ok
        (sendMessage ("Student not re-enrolled: Cannot use the course code " ++ "courseX") ++
          [Effect.logMsg "Warning: illegal call to re-enroll student"]) ∧
    onReenrollStudent { initialState with user := some instrUser }
        (some { userId := some "stud1", program := some "course1" })
        (Except.ok (some studentA)) none =
      Except.ok [Effect.logMsg "Warning: illegal call to reenroll student"] := by
  refine ⟨?_, ?_, ?_⟩
  · exact (enroll_auth_amended _ instrUser "stud1" studentA none "courseX" rfl).1
      (by decide)
  · exact (enroll_auth_amended _ instrUser "stud1" studentA none "courseX" rfl).2.1
      (by decide)
  · exact (enroll_auth_amended _ instrUser "stud1" studentA none "course1" rfl).2.2
      (by decide) (by decide)

/-- Counterexample to claim C8 as stated: the pong does not echo the
client-supplied startTime unmodified; the handler applies parseInt, so the
string 42.7 comes back as the number 42. -/
theorem onPing_parseInt_cex :
    onPing (some { startTime := JsVal.str "42.7" }) =
      [Effect.emitPong (JsVal.num 42)] ∧
    JsVal.num 42 ≠ JsVal.str "42.7" := by
  exact ⟨by decide, by decide⟩

/-- Claim C8 amended: for every non-null payload the handler emits one
oo.pong whose startTime is parseInt of the client-supplied value; when the
client supplies an integer number of magnitude below 10 to the 21st power
(the range JavaScript prints as a plain decimal numeral) the value is
echoed unmodified. -/
theorem onPing_parseInt_amended (st : JsVal) (n : Int)
    (h : n.natAbs < 10 ^ 21) :
    onPing (some { startTime := st }) = [Effect.emitPong (parseIntJs st)] ∧
    parseIntJs (JsVal.num n) = JsVal.num n := by
  refine ⟨rfl, ?_⟩
  simp only [parseIntJs]
  rw [if_pos h]

/-- Witness for C8 amended at a concrete string and a concrete integer
below the threshold. -/
theorem onPing_parseInt_amended_witness :
    (1234567890 : Int).natAbs < 10 ^ 21 ∧
    (onPing (some { startTime := JsVal.str "42.7" }) =
        [Effect.emitPong (parseIntJs (JsVal.str "42.7"))] ∧
      parseIntJs (JsVal.num 1234567890) = JsVal.num 1234567890) :=
  ⟨by decide, onPing_parseInt_amended (JsVal.str "42.7") 1234567890 (by decide)⟩

/-- Claim C9: with no authenticated user, a well-formed unenroll-student
or reenroll-student request reaches the null dereference of the user
instructor list (the error branch of the totalized embedding), while the
other profile-mutating handlers return without effects thanks to their
authenticated-user prechecks. -/
theorem student_handlers_null_user :
    onUnenrollStudent initialState (some { userId := some "stud1" })
        (Except.ok (some studentA)) none = Except.error () ∧
    onReenrollStudent initialState
        (some { userId := some "stud1", program := some "course1" })
        (Except.ok (some studentA)) none = Except.error () ∧
    onEnroll initialState (some { program := some "course1" }) none =
      (initialState, []) ∧
    onSetPassword initialState (some { new_pwd := "pw" }) none = [] ∧
    onToggleSharing initialState (some { enabled := true }) none = [] ∧
    onDeleteBucket initialState (some { bucket_id := some "bucket1" })
        (Except.ok (some bucketA)) none = [] :=
  ⟨rfl, rfl, rfl, rfl, rfl, rfl⟩

/-- Unlisten does not touch the destroyed flag. -/
theorem unlisten_destroyed (s : HState) :
    (unlisten s).destroyed = s.destroyed := by
  obtain ⟨u, w, b, d, sl, bl, wl, bs, wsb, bsc⟩ := s
  cases w <;> rfl

/-- Listen does not touch the destroyed flag. -/
theorem listen_destroyed (s : HState) :
    (listen s).destroyed = s.destroyed := by
  obtain ⟨u, w, b, d, sl, bl, wl, bs, wsb, bsc⟩ := s
  cases w <;> rfl

/-- The join continuation does not touch the destroyed flag. -/
theorem init_session_destroyed_eq (s : HState) (user : Option IUser)
    (init : Option InitReq) :
    ((init_session s user init).1).destroyed = s.destroyed := by
  unfold init_session
  by_cases hd : s.destroyed = true
  · rw [if_pos hd]
  · rw [if_neg hd]
    dsimp only
    split
    · rfl
    · split
      · dsimp only
        rw [listen_destroyed]
      · split
        · dsimp only
          rw [listen_destroyed]
        · dsimp only
          rw [listen_destroyed]

/-- The whole startup join does not touch the destroyed flag. -/
theorem startupJoin_destroyed_eq (s : HState)
    (userRes : Except DbErr (Option IUser)) (init : Option InitReq) :
    ((startupJoin s userRes init).1).destroyed = s.destroyed := by
  cases userRes with
  | error e => rfl
  | ok user => exact init_session_destroyed_eq s user init

/-- The enroll handler does not touch the destroyed flag. -/
theorem onEnroll_destroyed_eq (s : HState) (obj : Option EnrollObj)
    (saveRes : Option DbErr) :
    ((onEnroll s obj saveRes).1).destroyed = s.destroyed := by
  unfold onEnroll
  cases s.user with
  | none => rfl
  | some u =>
    cases obj with
    | none => rfl
    | some o =>
      obtain ⟨po⟩ := o
      cases po <;> rfl

/-- The bucket-load callback does not touch the destroyed flag. -/
theorem loadBucketCb_destroyed_eq (s : HState) (sk : Bool)
    (res : Except DbErr (Option BucketRec)) :
    ((loadBucketCb s sk res).1).destroyed = s.destroyed := by
  cases res with
  | error e => rfl
  | ok ob => cases ob <;> rfl

/-- Claim C10: the destroyed flag starts out false and none of the
operations of this source unit — the listener lifecycle, the startup join
and its continuation, the client-disconnect and backend-destroy teardown
listeners, session-code assignment, enrollment and the bucket-load
callback — ever changes it; only mutation from outside the module can
trip the guard at the join boundary. -/
theorem destroyed_flag_preserved (s : HState) (user : Option IUser)
    (userRes : Except DbErr (Option IUser)) (init : Option InitReq)
    (c m : String) (obj : Option EnrollObj) (r : Option DbErr)
    (sk : Bool) (lb : Except DbErr (Option BucketRec)) :
    initialState.destroyed = false ∧
    (listen s).destroyed = s.destroyed ∧
    (unlisten s).destroyed = s.destroyed ∧
    ((init_session s user init).1).destroyed = s.destroyed ∧
    ((startupJoin s userRes init).1).destroyed = s.destroyed ∧
    ((onDestroyD s).1).destroyed = s.destroyed ∧
    ((onDestroyU s m).1).destroyed = s.destroyed ∧
    ((setSessCode s c).1).destroyed = s.destroyed ∧
    ((onEnroll s obj r).1).destroyed = s.destroyed ∧
    ((loadBucketCb s sk lb).1).destroyed = s.destroyed :=
  ⟨rfl, listen_destroyed s, unlisten_destroyed s,
   init_session_destroyed_eq s user init,
   startupJoin_destroyed_eq s userRes init,
   unlisten_destroyed s, rfl, rfl,
   onEnroll_destroyed_eq s obj r,
   loadBucketCb_destroyed_eq s sk lb⟩

end SocketConn
